import Mathlib

/-!
Verification development for the rendering-core material/property system
(`src/src/scene/materials/standard-material.js`) and the render-action light
collection (`src/unnamed/part_001`, class `RenderAction`).

JavaScript numbers are embedded as `ℚ`; the transcendental operations used by
the code (`Math.cos`, `Math.sin`, `Math.pow`, the `DEG_TO_RAD` constant) are
abstracted into a `FloatOps` record, since only their results flow into uniform
values and no claim depends on their numeric identities.  JavaScript object
identity (Float32Arrays, cached uniform arrays, `Set` instances) is embedded by
explicit allocation identifiers drawn from a counter in the material state.
-/

/-- Two-component vector, standing for the engine type `Vec2` (math library,
external collaborator).  Used for texture tiling and offset. -/
structure Vec2 where
  x : ℚ
  y : ℚ
deriving DecidableEq, Repr

/-- Three-component RGB color, standing for the engine type `Color` (math
library, external collaborator); only the `r`, `g`, `b` channels are read by
the standard material. -/
structure ColorRGB where
  r : ℚ
  g : ℚ
  b : ℚ
deriving DecidableEq, Repr

/-- Quaternion, standing for the engine type `Quat`; the scene skybox rotation is
compared against `Quat.IDENTITY`. -/
structure Quat where
  x : ℚ
  y : ℚ
  z : ℚ
  w : ℚ
deriving DecidableEq, Repr

/-- The identity quaternion `Quat.IDENTITY` (0, 0, 0, 1). -/
def quatIdentity : Quat := { x := 0, y := 0, z := 0, w := 1 }

/-- Texture handle: opaque asset object.  `tid` models JavaScript object
identity; `ttype`, `fixCubemapSeams` and `format` are the fields read by the
texture-map dirty predicate in `_defineTex2D`. -/
structure Texture where
  tid : ℕ
  ttype : ℕ
  fixCubemapSeams : Bool
  format : ℕ
deriving DecidableEq, Repr

/-- One 2D texture slot of the material: the `<name>Map`, `<name>MapTiling`,
`<name>MapOffset` and `<name>MapRotation` properties registered by
`_defineTex2D` (rotation is in degrees; field named `rot` here). -/
structure TexSlot where
  map : Option Texture
  tiling : Vec2
  offset : Vec2
  rot : ℚ
deriving DecidableEq, Repr

/-- Default texture slot: map `null`, tiling (1,1), offset (0,0), rotation 0,
matching the `_defineTex2D` default values. -/
def defaultTexSlot : TexSlot :=
  { map := none, tiling := { x := 1, y := 1 }, offset := { x := 0, y := 0 }, rot := 0 }

/-- A `Float32Array(3)` uniform buffer: `allocId` models JavaScript object
identity (which allocation this is), `v0 v1 v2` its three components. -/
structure F32Arr3 where
  allocId : ℕ
  v0 : ℚ
  v1 : ℚ
  v2 : ℚ
deriving DecidableEq, Repr

/-- A `{ name, value }` entry of a two-element uniform array (as allocated for
map transforms and the cube map projection box). -/
structure NamedArr where
  name : String
  value : F32Arr3
deriving DecidableEq, Repr

/-- A cached two-element uniform array `[{name, value}, {name, value}]`;
`allocId` is the identity of the outer array object. -/
structure PairUniform where
  allocId : ℕ
  fst : NamedArr
  snd : NamedArr
deriving DecidableEq, Repr

/-- A value stored in the per-material uniform cache `_uniformCache`: either a
single `Float32Array(3)` (colors) or a two-element named array (map
transforms, cube projection box). -/
inductive CachedUniform where
  | carr (a : F32Arr3)
  | cpair (p : PairUniform)
deriving DecidableEq, Repr

/-- Identity of a cached uniform (the outer allocated object). -/
def cachedId : CachedUniform → ℕ
  | .carr a => a.allocId
  | .cpair p => p.allocId

/-- A key of the parameter table / active-parameter sets.  Almost all keys are
strings; `obj` stands for the one case where a non-string (the cached
`cubeMapProjectionBox` uniform array object) is passed to `_setParameter` as
the name (line 746), identified by its allocation id. -/
inductive PKey where
  | str (s : String)
  | obj (oid : ℕ)
deriving DecidableEq, Repr

/-- A value bound in the parameter table: number, texture, Float32Array,
opaque object (ambient SH coefficients), raw number list (rotation matrix
data), or JavaScript `undefined`. -/
inductive PValue where
  | num (q : ℚ)
  | tex (t : Texture)
  | arr (a : F32Arr3)
  | objv (oid : ℕ)
  | listv (l : List ℚ)
  | undefv
deriving DecidableEq, Repr

/-- Association-list lookup (first binding wins), modelling JavaScript object
property access `table[k]`. -/
def alookup {α β : Type} [DecidableEq α] : List (α × β) → α → Option β
  | [], _ => none
  | (k, v) :: rest, q => if k = q then some v else alookup rest q

/-- Association-list write `table[k] = v`: replaces the first binding of `k`
in place, or appends a new binding (JavaScript object insertion order). -/
def aset {α β : Type} [DecidableEq α] : List (α × β) → α → β → List (α × β)
  | [], q, v => [(q, v)]
  | (k, w) :: rest, q, v => if k = q then (q, v) :: rest else (k, w) :: aset rest q v

/-- Association-list delete `delete table[k]`. -/
def aremove {α β : Type} [DecidableEq α] : List (α × β) → α → List (α × β)
  | [], _ => []
  | (k, w) :: rest, q => if k = q then aremove rest q else (k, w) :: aremove rest q

/-- JavaScript `Set.add`: append on first occurrence only (JavaScript sets
preserve insertion order, which this list models). -/
def jsSetAdd {α : Type} [DecidableEq α] (l : List α) (x : α) : List α :=
  if x ∈ l then l else l ++ [x]

theorem alookup_aset_self {α β : Type} [DecidableEq α] (l : List (α × β)) (k : α) (v : β) :
    alookup (aset l k v) k = some v := by
  induction l with
  | nil => simp [aset, alookup]
  | cons hd tl ih =>
    obtain ⟨k0, v0⟩ := hd
    by_cases h : k0 = k
    · simp [aset, h, alookup]
    · simp [aset, h, alookup, ih]

theorem alookup_aset_ne {α β : Type} [DecidableEq α] (l : List (α × β)) (k q : α) (v : β)
    (h : q ≠ k) : alookup (aset l k v) q = alookup l q := by
  induction l with
  | nil => simp [aset, alookup, Ne.symm h]
  | cons hd tl ih =>
    obtain ⟨k0, v0⟩ := hd
    by_cases h0 : k0 = k
    · subst h0
      simp [aset, alookup, Ne.symm h]
    · by_cases h1 : k0 = q
      · subst h1
        simp [aset, h0, alookup, h, Ne.symm h]
      · simp [aset, h0, alookup, h1, ih]

theorem aset_of_alookup_eq {α β : Type} [DecidableEq α] (l : List (α × β)) (k : α) (v : β)
    (h : alookup l k = some v) : aset l k v = l := by
  induction l with
  | nil => simp [alookup] at h
  | cons hd tl ih =>
    obtain ⟨k0, v0⟩ := hd
    by_cases h0 : k0 = k
    · subst h0
      simp [alookup] at h
      simp [aset, h]
    · simp [alookup, h0] at h
      simp [aset, h0, ih h]

theorem alookup_aremove_self {α β : Type} [DecidableEq α] (l : List (α × β)) (k : α) :
    alookup (aremove l k) k = none := by
  induction l with
  | nil => simp [aremove, alookup]
  | cons hd tl ih =>
    obtain ⟨k0, v0⟩ := hd
    by_cases h0 : k0 = k
    · simp [aremove, h0, ih]
    · simp [aremove, h0, alookup, ih]

theorem alookup_aremove_ne {α β : Type} [DecidableEq α] (l : List (α × β)) (k q : α)
    (h : q ≠ k) : alookup (aremove l k) q = alookup l q := by
  induction l with
  | nil => simp [aremove]
  | cons hd tl ih =>
    obtain ⟨k0, v0⟩ := hd
    by_cases h0 : k0 = k
    · subst h0
      simp [aremove, alookup, Ne.symm h, ih]
    · simp [aremove, h0, alookup, ih]

/-- Shading model constant `SPECULAR_PHONG`.  Modelled from the spec: the
constants module (`scene/constants.js`) is not under src; only distinctness of
the enum values matters here. -/
def SPECULAR_PHONG : ℕ := 0

/-- Shading model constant `SPECULAR_BLINN` (the default). -/
def SPECULAR_BLINN : ℕ := 1

/-- Cube map projection constant `CUBEPROJ_NONE` (the default). -/
def CUBEPROJ_NONE : ℕ := 0

/-- Cube map projection constant `CUBEPROJ_BOX`. -/
def CUBEPROJ_BOX : ℕ := 1

/-- Render pass constant `SHADER_DEPTH`.  Modelled from the spec: pass kinds
normal/depth/shadow/pick; only distinctness matters. -/
def SHADER_DEPTH : ℕ := 2

/-- Render pass constant `SHADER_PICK`. -/
def SHADER_PICK : ℕ := 3

/-- The key insertion order of the module-level `_matTex2D` registry: the
`_defineTex2D` calls of `_defineMaterialProps`, in source order (lines
1192-1215).  `updateUniforms` iterates this order (`for (const p in
_matTex2D)`). -/
def matTex2D : List String :=
  ["diffuse", "specular", "emissive", "thickness", "specularityFactor", "normal",
   "metalness", "gloss", "opacity", "refraction", "height", "ao", "light", "msdf",
   "diffuseDetail", "normalDetail", "clearCoat", "clearCoatGloss", "clearCoatNormal",
   "sheen", "sheenGloss", "iridescence", "iridescenceThickness"]

/-- Axis-aligned bounding box (`cubeMapProjectionBox`); the engine
`BoundingBox.getMin()`/`getMax()` results are modelled directly as the six
corner components. -/
structure BBox where
  minX : ℚ
  minY : ℚ
  minZ : ℚ
  maxX : ℚ
  maxY : ℚ
  maxZ : ℚ
deriving DecidableEq, Repr

/-- The property values of a `StandardMaterial` that are read by
`updateUniforms`, `updateEnvUniforms`, and the uniform functions.  Texture
slots (map/tiling/offset/rotation per `_defineTex2D` name) are collected into
the `texSlots` table.

The source reads two properties that are never defined (`sheenTint`,
`sheenGlossinessTint`, and also `sheenGlossinessMap` instead of
`sheenGlossMap`); those reads produce `undefined` and are embedded as the
constants they denote at the read sites, so they have no field here. -/
structure Material where
  texSlots : String → TexSlot
  ambient : ColorRGB
  diffuse : ColorRGB
  specular : ColorRGB
  emissive : ColorRGB
  sheen : ColorRGB
  attenuation : ColorRGB
  diffuseTint : Bool
  specularTint : Bool
  specularityFactorTint : Bool
  emissiveTint : Bool
  useMetalness : Bool
  enableGGXSpecular : Bool
  useDynamicRefraction : Bool
  useIridescence : Bool
  opacityFadesSpecular : Bool
  useGammaTonemap : Bool
  useSkybox : Bool
  metalness : ℚ
  specularityFactor : ℚ
  sheenGlossiness : ℚ
  refractionIndex : ℚ
  anisotropy : ℚ
  clearCoat : ℚ
  clearCoatGlossiness : ℚ
  clearCoatBumpiness : ℚ
  shininess : ℚ
  emissiveIntensity : ℚ
  refraction : ℚ
  thickness : ℚ
  attenuationDistance : ℚ
  iridescence : ℚ
  iridescenceRefractionIndex : ℚ
  iridescenceThicknessMin : ℚ
  iridescenceThicknessMax : ℚ
  opacity : ℚ
  alphaFade : ℚ
  occludeSpecularIntensity : ℚ
  bumpiness : ℚ
  normalDetailMapBumpiness : ℚ
  heightMapFactor : ℚ
  reflectivity : ℚ
  occludeSpecular : ℕ
  cubeMapProjection : ℕ
  shadingModel : ℕ
  ambientSH : Option ℕ
  envAtlas : Option Texture
  cubeMap : Option Texture
  sphereMap : Option Texture
  cubeMapProjectionBox : BBox

/-- Scene context fields read by the standard material (external collaborator,
read-only): `gammaCorrection`, `envAtlas`, `skybox`, `skyboxRotation`,
`_skyboxRotationMat3` (an optional matrix whose `data` array is bound as the
`cubeMapRotationMatrix` parameter). -/
structure Scene where
  gammaCorrection : Bool
  envAtlas : Option Texture
  skybox : Option Texture
  skyboxRot : Quat
  skyboxRotMat3Data : Option (List ℚ)

/-- The transcendental operations the source takes from `Math` and
`math.DEG_TO_RAD`, abstracted: `cos x`, `sin x`, `pow b e`, and the constant
`DEG_TO_RAD` (π/180, irrational, hence abstract). -/
structure FloatOps where
  cos : ℚ → ℚ
  sin : ℚ → ℚ
  pow : ℚ → ℚ → ℚ
  degToRad : ℚ

/-- Mutable state threaded through the uniform functions of one material:
the per-material uniform cache `_uniformCache` (keyed by uniform name), the
allocation counter providing fresh object identities, and the `_dirtyShader`
flag (set by the volatile color getters). -/
structure EmitSt where
  cache : List (String × CachedUniform)
  ctr : ℕ
  dirty : Bool
deriving DecidableEq, Repr

/-- Identities to reuse when a cached uniform is found by `_allocUniform`:
index 0 is the outer object, indices 1 and 2 the two inner `Float32Array`s of
a pair uniform.  A shape mismatch (never reached with the registered uniform
names, which are pairwise distinct per kind) degrades to the single id. -/
def reuseIds : CachedUniform → ℕ → ℕ
  | .carr a, _ => a.allocId
  | .cpair p, 0 => p.allocId
  | .cpair p, 1 => p.fst.value.allocId
  | .cpair p, _ => p.snd.value.allocId

/-- Model of `_allocUniform` followed by in-place mutation of the allocated/cached
object: look the name up in the cache; reuse its object identities on a hit,
draw fresh ones from the counter on a miss (up to three objects are
allocated); then store the freshly computed contents under the name.  `build`
receives the identity supply and produces the full new contents. -/
def cacheStep (name : String) (build : (ℕ → ℕ) → CachedUniform) (s : EmitSt) :
    CachedUniform × EmitSt :=
  match alookup s.cache name with
  | some u =>
      let w := build (reuseIds u)
      (w, { s with cache := aset s.cache name w })
  | none =>
      let w := build (fun i => s.ctr + i)
      (w, { s with cache := aset s.cache name w, ctr := s.ctr + 3 })

/-- Contents of a color uniform (`_defineColor`, lines 1034-1051): the stored
color raised componentwise to the power 2.2 when both `material.useGammaTonemap`
and `scene.gammaCorrection` hold, the raw components otherwise. -/
def colorBuild (ops : FloatOps) (m : Material) (scene : Scene) (c : ColorRGB) :
    (ℕ → ℕ) → CachedUniform := fun f =>
  let gamma := m.useGammaTonemap && scene.gammaCorrection
  .carr { allocId := f 0
        , v0 := if gamma then ops.pow c.r (11 / 5) else c.r
        , v1 := if gamma then ops.pow c.g (11 / 5) else c.g
        , v2 := if gamma then ops.pow c.b (11 / 5) else c.b }

/-- Contents of a `<name>MapTransform` uniform pair (`_defineTex2D`, lines
993-1016): rows of the 2D tiling/offset/rotation transform. -/
def transformBuild (ops : FloatOps) (slot : TexSlot) (p : String) :
    (ℕ → ℕ) → CachedUniform := fun f =>
  let cr := ops.cos (TexSlot.rot slot * ops.degToRad)
  let sr := ops.sin (TexSlot.rot slot * ops.degToRad)
  .cpair { allocId := f 0
         , fst := { name := "texture_" ++ p ++ "MapTransform0"
                  , value := { allocId := f 1
                             , v0 := cr * slot.tiling.x
                             , v1 := -sr * slot.tiling.y
                             , v2 := slot.offset.x } }
         , snd := { name := "texture_" ++ p ++ "MapTransform1"
                  , value := { allocId := f 2
                             , v0 := sr * slot.tiling.x
                             , v1 := cr * slot.tiling.y
                             , v2 := 1 - slot.tiling.y - slot.offset.y } } }

/-- Contents of the `cubeMapProjectionBox` uniform pair (`_defineObject`,
lines 1134-1158): `envBoxMin` and `envBoxMax` from the bounding box. -/
def cubeBoxBuild (m : Material) : (ℕ → ℕ) → CachedUniform := fun f =>
  .cpair { allocId := f 0
         , fst := { name := "envBoxMin"
                  , value := { allocId := f 1
                             , v0 := m.cubeMapProjectionBox.minX
                             , v1 := m.cubeMapProjectionBox.minY
                             , v2 := m.cubeMapProjectionBox.minZ } }
         , snd := { name := "envBoxMax"
                  , value := { allocId := f 2
                             , v0 := m.cubeMapProjectionBox.maxX
                             , v1 := m.cubeMapProjectionBox.maxY
                             , v2 := m.cubeMapProjectionBox.maxZ } } }

/-- One step of the `updateUniforms` emission sequence.  `pureC` emits a list
of parameters computed from property values alone (plain getters, no cache);
`condCached` is a guarded uniform-cache access (`_allocUniform` + in-place
update): when `cond` holds it runs `cacheStep name build` and emits
`emitOf` of the written uniform, and `markDirty` records whether the step
reads a volatile color getter (which sets `_dirtyShader`). -/
inductive ChunkDesc where
  | pureC (out : List (PKey × PValue))
  | condCached (cond : Bool) (name : String) (markDirty : Bool)
      (build : (ℕ → ℕ) → CachedUniform)
      (emitOf : CachedUniform → List (PKey × PValue))

/-- Uniform-cache keys a step may touch. -/
def ChunkDesc.keys : ChunkDesc → List String
  | .pureC _ => []
  | .condCached _ name _ _ _ => [name]

/-- The contribution of a step to `_dirtyShader` (volatile getter reads). -/
def ChunkDesc.dadd : ChunkDesc → Bool
  | .pureC _ => false
  | .condCached cond _ md _ _ => cond && md

/-- Well-formedness of a cached step: rebuilding from the identities of a
previous build reproduces it (cached allocations are reused, contents
recomputed identically). -/
def ChunkDesc.good : ChunkDesc → Prop
  | .pureC _ => True
  | .condCached _ _ _ build _ => ∀ f, build (reuseIds (build f)) = build f

/-- Run one emission step. -/
def runDesc : ChunkDesc → EmitSt → List (PKey × PValue) × EmitSt
  | .pureC out, s => (out, s)
  | .condCached cond name md build emitOf, s =>
      if cond then
        let r := cacheStep name build s
        (emitOf r.1, { r.2 with dirty := r.2.dirty || md })
      else ([], s)

/-- Run an emission sequence, concatenating the emitted parameters in order. -/
def runDescs : List ChunkDesc → EmitSt → List (PKey × PValue) × EmitSt
  | [], s => ([], s)
  | d :: ds, s =>
      let r1 := runDesc d s
      let r2 := runDescs ds r1.2
      (r1.1 ++ r2.1, r2.2)

theorem cacheStep_lookup_self (name : String) (build : (ℕ → ℕ) → CachedUniform)
    (s : EmitSt) : alookup ((cacheStep name build s).2).cache name = some (cacheStep name build s).1 := by
  unfold cacheStep
  cases h : alookup s.cache name with
  | none => simpa using alookup_aset_self s.cache name (build fun i => s.ctr + i)
  | some u => simpa using alookup_aset_self s.cache name (build (reuseIds u))

theorem cacheStep_built (name : String) (build : (ℕ → ℕ) → CachedUniform)
    (s : EmitSt) : ∃ f, (cacheStep name build s).1 = build f := by
  unfold cacheStep
  cases h : alookup s.cache name with
  | none => exact ⟨fun i => s.ctr + i, by simp⟩
  | some u => exact ⟨reuseIds u, by simp⟩

theorem cacheStep_frame (name : String) (build : (ℕ → ℕ) → CachedUniform)
    (s : EmitSt) (k : String) (hk : k ≠ name) :
    alookup ((cacheStep name build s).2).cache k = alookup s.cache k := by
  unfold cacheStep
  cases h : alookup s.cache name with
  | none => simpa using alookup_aset_ne s.cache name k _ hk
  | some u => simpa using alookup_aset_ne s.cache name k _ hk

theorem cacheStep_dirty (name : String) (build : (ℕ → ℕ) → CachedUniform)
    (s : EmitSt) : ((cacheStep name build s).2).dirty = s.dirty := by
  unfold cacheStep
  cases h : alookup s.cache name <;> simp

/-- A cached step whose name is already mapped to a previous build result is a
no-op on the state: the cached identities are reused, the recomputed contents
coincide, and the counter is not consumed. -/
theorem cacheStep_stable (name : String) (build : (ℕ → ℕ) → CachedUniform)
    (hgood : ∀ f, build (reuseIds (build f)) = build f)
    (f0 : ℕ → ℕ) (t : EmitSt) (ht : alookup t.cache name = some (build f0)) :
    cacheStep name build t = (build f0, t) := by
  unfold cacheStep
  rw [ht]
  simp only
  rw [hgood f0]
  have : aset t.cache name (build f0) = t.cache := aset_of_alookup_eq _ _ _ ht
  rw [this]

theorem runDesc_dirty (d : ChunkDesc) (s : EmitSt) :
    ((runDesc d s).2).dirty = (s.dirty || d.dadd) := by
  cases d with
  | pureC out => simp [runDesc, ChunkDesc.dadd]
  | condCached cond name md build emitOf =>
    cases cond with
    | false => simp [runDesc, ChunkDesc.dadd]
    | true => simp [runDesc, ChunkDesc.dadd, cacheStep_dirty]

theorem runDesc_frame (d : ChunkDesc) (s : EmitSt) (k : String) (hk : k ∉ d.keys) :
    alookup ((runDesc d s).2).cache k = alookup s.cache k := by
  cases d with
  | pureC out => simp [runDesc]
  | condCached cond name md build emitOf =>
    have hk0 : k ≠ name := by simpa [ChunkDesc.keys] using hk
    cases cond with
    | false => simp [runDesc]
    | true => simp [runDesc, cacheStep_frame name build s k hk0]

theorem runDesc_ctr_of_cached (d : ChunkDesc) (s t : EmitSt)
    (hg : d.good)
    (hag : ∀ k ∈ d.keys, alookup t.cache k = alookup ((runDesc d s).2).cache k) :
    (runDesc d t).1 = (runDesc d s).1 ∧ ((runDesc d t).2).cache = t.cache ∧
      ((runDesc d t).2).ctr = t.ctr := by
  cases d with
  | pureC out => simp [runDesc]
  | condCached cond name md build emitOf =>
    cases cond with
    | false => simp [runDesc]
    | true =>
      obtain ⟨f0, hf0⟩ := cacheStep_built name build s
      have hself := cacheStep_lookup_self name build s
      have hlook : alookup t.cache name = some (build f0) := by
        have h1 := hag name (by simp [ChunkDesc.keys])
        rw [h1]
        simp only [runDesc, if_true]
        rw [hself, hf0]
      have hst := cacheStep_stable name build hg f0 t hlook
      refine ⟨?_, ?_, ?_⟩ <;> simp [runDesc, hst, hf0]

/-- Combined dirty-flag contribution of an emission sequence. -/
def descsDtot (l : List ChunkDesc) : Bool :=
  l.foldr (fun d acc => d.dadd || acc) false

/-- Pairwise disjointness of the uniform-cache keys of an emission sequence
(each registered uniform name is used by at most one step). -/
def KeysDisjoint (l : List ChunkDesc) : Prop :=
  List.Pairwise (fun a b => ∀ k, k ∈ ChunkDesc.keys a → k ∉ ChunkDesc.keys b) l

theorem runDescs_dirty (l : List ChunkDesc) (s : EmitSt) :
    ((runDescs l s).2).dirty = (s.dirty || descsDtot l) := by
  induction l generalizing s with
  | nil => simp [runDescs, descsDtot]
  | cons d ds ih =>
    simp only [runDescs]
    rw [ih, runDesc_dirty]
    simp [descsDtot, Bool.or_assoc]

theorem runDescs_cache_frame (l : List ChunkDesc) (s : EmitSt) (k : String)
    (hk : ∀ d ∈ l, k ∉ d.keys) :
    alookup ((runDescs l s).2).cache k = alookup s.cache k := by
  induction l generalizing s with
  | nil => simp [runDescs]
  | cons d ds ih =>
    simp only [runDescs]
    rw [ih _ (fun d hd => hk d (List.mem_cons_of_mem _ hd)),
      runDesc_frame d s k (hk d (List.mem_cons_self d ds))]

/-- Stability of a whole emission sequence: once a pass has saturated the
uniform cache, re-running the sequence from any state whose cache agrees on
the keys of the sequence emits the same parameters and leaves cache and counter
untouched. -/
theorem runDescs_stable (l : List ChunkDesc) (hg : ∀ d ∈ l, d.good)
    (hd : KeysDisjoint l) (s t : EmitSt)
    (hag : ∀ d ∈ l, ∀ k ∈ d.keys, alookup t.cache k = alookup ((runDescs l s).2).cache k) :
    (runDescs l t).1 = (runDescs l s).1 ∧ ((runDescs l t).2).cache = t.cache ∧
      ((runDescs l t).2).ctr = t.ctr := by
  induction l generalizing s t with
  | nil => simp [runDescs]
  | cons d ds ih =>
    have hdisj : ∀ b ∈ ds, ∀ k, k ∈ d.keys → k ∉ b.keys :=
      fun b hb k hk => (List.pairwise_cons.mp hd).1 b hb k hk
    have hdds : KeysDisjoint ds := (List.pairwise_cons.mp hd).2
    have hgds : ∀ b ∈ ds, b.good := fun b hb => hg b (List.mem_cons_of_mem _ hb)
    -- agreement of t with the state right after step d of the first pass
    have hag1 : ∀ k ∈ d.keys, alookup t.cache k = alookup ((runDesc d s).2).cache k := by
      intro k hk
      have h1 := hag d (List.mem_cons_self d ds) k hk
      have h2 : alookup ((runDescs ds ((runDesc d s).2)).2).cache k =
          alookup ((runDesc d s).2).cache k :=
        runDescs_cache_frame ds ((runDesc d s).2) k (fun b hb => hdisj b hb k hk)
      rw [h1]
      simp only [runDescs]
      rw [h2]
    obtain ⟨ho1, hc1, hn1⟩ := runDesc_ctr_of_cached d s t (hg d (List.mem_cons_self d ds)) hag1
    -- the tail runs from the post-d state of the second pass
    have hag2 : ∀ b ∈ ds, ∀ k ∈ b.keys,
        alookup ((runDesc d t).2).cache k = alookup ((runDescs ds ((runDesc d s).2)).2).cache k := by
      intro b hb k hk
      rw [hc1]
      have := hag b (List.mem_cons_of_mem _ hb) k hk
      rw [this]
      simp [runDescs]
    obtain ⟨ho2, hc2, hn2⟩ := ih hgds hdds ((runDesc d s).2) ((runDesc d t).2) hag2
    refine ⟨?_, ?_, ?_⟩
    · simp only [runDescs]
      rw [ho1, ho2]
    · simp only [runDescs]
      rw [hc2, hc1]
    · simp only [runDescs]
      rw [hn2, hn1]

/-- Pass idempotence of an emission sequence: running it a second time from
the state the first run produced emits the same parameter list and returns
the state unchanged. -/
theorem runDescs_idem (l : List ChunkDesc) (hg : ∀ d ∈ l, d.good)
    (hd : KeysDisjoint l) (s : EmitSt) :
    runDescs l ((runDescs l s).2) = ((runDescs l s).1, (runDescs l s).2) := by
  obtain ⟨ho, hc, hn⟩ :=
    runDescs_stable l hg hd s ((runDescs l s).2) (fun d hd k hk => rfl)
  have hdirty : ((runDescs l ((runDescs l s).2)).2).dirty = ((runDescs l s).2).dirty := by
    rw [runDescs_dirty, runDescs_dirty]
    rw [Bool.or_assoc, Bool.or_self]
  apply Prod.ext
  · exact ho
  · cases hfin : (runDescs l ((runDescs l s).2)).2 with
    | mk cache ctr dirty =>
      cases hone : (runDescs l s).2 with
      | mk cache1 ctr1 dirty1 =>
        simp only at ho hc hn hdirty
        rw [hfin, hone] at hc hn hdirty
        simp only at hc hn hdirty
        simp [hc, hn, hdirty]

/-- The parameter value corresponding to a cached uniform when a single
`Float32Array` is expected (colors). -/
def emitArr : CachedUniform → PValue
  | .carr a => .arr a
  | .cpair _ => .undefv

/-- The two parameters `_setParameters` registers from a `{name, value}` pair
uniform (map transforms). -/
def emitTransformParams : CachedUniform → List (PKey × PValue)
  | .cpair p => [(.str p.fst.name, .arr p.fst.value), (.str p.snd.name, .arr p.snd.value)]
  | .carr _ => []

/-- The identity-transform test of the `<name>MapTransform` uniform function
(lines 987-991): tiling (1,1), offset (0,0), rotation 0. -/
def isIdentityTransform (slot : TexSlot) : Bool :=
  decide (slot.tiling.x = 1 ∧ slot.tiling.y = 1 ∧ slot.offset.x = 0 ∧
    slot.offset.y = 0 ∧ slot.rot = 0)

/-- Emission step of one color uniform (`_defineColor`): guarded by the
condition of the caller; reading the color goes through the volatile getter, so
the step marks the shader dirty; the uniform is cached under the property
name and bound as `material_<name>`. -/
def colorDesc (ops : FloatOps) (m : Material) (scene : Scene) (cond : Bool)
    (name : String) (c : ColorRGB) : ChunkDesc :=
  .condCached cond name true (colorBuild ops m scene c)
    (fun w => [(PKey.str ("material_" ++ name), emitArr w)])

/-- The two emission steps of `_updateMap p` (lines 627-639): when `<p>Map` is
bound, register `texture_<p>Map` and then, when the transform differs from
the identity, the two `texture_<p>MapTransform0/1` parameters via the cached
`<p>MapTransform` uniform. -/
def slotDescs (ops : FloatOps) (m : Material) (p : String) : List ChunkDesc :=
  [ .pureC (match (m.texSlots p).map with
      | some t => [(PKey.str ("texture_" ++ p ++ "Map"), PValue.tex t)]
      | none => [])
  , .condCached ((m.texSlots p).map.isSome && !(isIdentityTransform (m.texSlots p)))
      (p ++ "MapTransform") false (transformBuild ops (m.texSlots p) p)
      emitTransformParams ]

/-- The `shininess` uniform function (lines 1099-1105): Phong expands the
0-100 value back to a specular power, otherwise it is normalized to 0-1. -/
def shininessUniform (ops : FloatOps) (m : Material) : ℚ :=
  if m.shadingModel = SPECULAR_PHONG then ops.pow 2 (m.shininess * (1 / 100) * 11)
  else m.shininess * (1 / 100)

/-- The overridden-environment emission of `updateUniforms` (lines 771-781):
the envAtlas/cubeMap/sphereMap if-chain, with envAtlas suppressed for the
Phong shading model. -/
def envOverrideParams (m : Material) : List (PKey × PValue) :=
  let isPhong := decide (m.shadingModel = SPECULAR_PHONG)
  match m.envAtlas, m.cubeMap, m.sphereMap with
  | some ea, some cm, _ =>
      if !isPhong then
        [(.str "texture_envAtlas", .tex ea), (.str "texture_cubeMap", .tex cm)]
      else [(.str "texture_cubeMap", .tex cm)]
  | some ea, none, sm =>
      if !isPhong then [(.str "texture_envAtlas", .tex ea)]
      else
        match sm with
        | some smv => [(.str "texture_sphereMap", .tex smv)]
        | none => []
  | none, some cm, _ => [(.str "texture_cubeMap", .tex cm)]
  | none, none, some smv => [(.str "texture_sphereMap", .tex smv)]
  | none, none, none => []

/-- The full emission sequence of `updateUniforms` (lines 660-783), in source
order.  The `useMetalness` if/else (lines 666-695) is linearized: the
`material_specular` step has the same guard in both branches, so the branches
merge into `useMetalness`-conditioned steps around it.

Two quirks of the source are kept: `sheenTint` is never defined
(`_defineFlag` has no such entry), so `!this.sheenMap || this.sheenTint`
reduces to the map being unbound; and `this.sheenGlossinessMap` /
`this.sheenGlossinessTint` are likewise undefined (the texture slot is named
`sheenGloss`), so `material_sheenGlossiness` is emitted unconditionally under
`useMetalness`. -/
def uuChunks (ops : FloatOps) (m : Material) (scene : Scene) : List ChunkDesc :=
  [ colorDesc ops m scene true "ambient" m.ambient
  , colorDesc ops m scene ((m.texSlots "diffuse").map.isNone || m.diffuseTint) "diffuse" m.diffuse
  , .pureC (if m.useMetalness && ((m.texSlots "metalness").map.isNone || m.metalness < 1)
      then [(PKey.str "material_metalness", PValue.num m.metalness)] else [])
  , colorDesc ops m scene ((m.texSlots "specular").map.isNone || m.specularTint) "specular" m.specular
  , .pureC (if m.useMetalness &&
        ((m.texSlots "specularityFactor").map.isNone || m.specularityFactorTint)
      then [(PKey.str "material_specularityFactor", PValue.num m.specularityFactor)] else [])
  , colorDesc ops m scene (m.useMetalness && (m.texSlots "sheen").map.isNone) "sheen" m.sheen
  , .pureC (if m.useMetalness
      then [(PKey.str "material_sheenGlossiness", PValue.num m.sheenGlossiness)] else [])
  , .pureC (if m.useMetalness then
      (if 0 < m.refractionIndex then
        [(PKey.str "material_f0",
          PValue.num (((1 / m.refractionIndex - 1) / (1 / m.refractionIndex + 1)) *
            ((1 / m.refractionIndex - 1) / (1 / m.refractionIndex + 1))))]
      else [(PKey.str "material_f0", PValue.num 1)]) else [])
  , .pureC (if m.enableGGXSpecular
      then [(PKey.str "material_anisotropy", PValue.num m.anisotropy)] else [])
  , .pureC (if 0 < m.clearCoat then
      [(PKey.str "material_clearCoat", PValue.num m.clearCoat),
       (PKey.str "material_clearCoatGlossiness", PValue.num m.clearCoatGlossiness),
       (PKey.str "material_clearCoatReflectivity", PValue.num m.clearCoat),
       (PKey.str "material_clearCoatBumpiness", PValue.num m.clearCoatBumpiness)] else [])
  , .pureC [(PKey.str "material_shininess", PValue.num (shininessUniform ops m))]
  , colorDesc ops m scene ((m.texSlots "emissive").map.isNone || m.emissiveTint) "emissive" m.emissive
  , .pureC (if m.emissiveIntensity ≠ 1
      then [(PKey.str "material_emissiveIntensity", PValue.num m.emissiveIntensity)] else [])
  , .pureC (if 0 < m.refraction then
      [(PKey.str "material_refraction", PValue.num m.refraction),
       (PKey.str "material_refractionIndex", PValue.num m.refractionIndex)] else [])
  , .pureC (if m.useDynamicRefraction
      then [(PKey.str "material_thickness", PValue.num m.thickness)] else [])
  , colorDesc ops m scene m.useDynamicRefraction "attenuation" m.attenuation
  , .pureC (if m.useDynamicRefraction then
      [(PKey.str "material_invAttenuationDistance",
        PValue.num (if m.attenuationDistance = 0 then 0 else 1 / m.attenuationDistance))] else [])
  , .pureC (if m.useIridescence then
      [(PKey.str "material_iridescence", PValue.num m.iridescence),
       (PKey.str "material_iridescenceRefractionIndex", PValue.num m.iridescenceRefractionIndex),
       (PKey.str "material_iridescenceThicknessMin", PValue.num m.iridescenceThicknessMin),
       (PKey.str "material_iridescenceThicknessMax", PValue.num m.iridescenceThicknessMax)] else [])
  , .pureC [(PKey.str "material_opacity", PValue.num m.opacity)]
  , .pureC (if m.opacityFadesSpecular = false
      then [(PKey.str "material_alphaFade", PValue.num m.alphaFade)] else [])
  , .pureC (if m.occludeSpecular ≠ 0
      then [(PKey.str "material_occludeSpecularIntensity",
        PValue.num m.occludeSpecularIntensity)] else [])
  , .condCached (decide (m.cubeMapProjection = CUBEPROJ_BOX)) "cubeMapProjectionBox" false
      (cubeBoxBuild m) (fun w => [(PKey.obj (cachedId w), PValue.undefv)]) ]
  ++ matTex2D.flatMap (slotDescs ops m)
  ++ [ .pureC (match m.ambientSH with
        | some o => [(PKey.str "ambientSH[0]", PValue.objv o)]
        | none => [])
  , .pureC (if (m.texSlots "normal").map.isSome
      then [(PKey.str "material_bumpiness", PValue.num m.bumpiness)] else [])
  , .pureC (if (m.texSlots "normal").map.isSome && (m.texSlots "normalDetail").map.isSome
      then [(PKey.str "material_normalDetailMapBumpiness",
        PValue.num m.normalDetailMapBumpiness)] else [])
  , .pureC (if (m.texSlots "height").map.isSome
      then [(PKey.str "material_heightMapFactor",
        PValue.num (m.heightMapFactor * (1 / 40)))] else [])
  , .pureC (envOverrideParams m)
  , .pureC [(PKey.str "material_reflectivity", PValue.num m.reflectivity)] ]

/-- The mutable state of one `StandardMaterial` instance: property values,
`_dirtyShader`, the two active-parameter sets `_activeParams` and
`_activeLightingParams`, the module-level temporary set `_params` (this
field models its contents, empty between update passes), the bound-parameter
table `parameters` (base class), the uniform cache `_uniformCache`, the
allocation counter for object identities, the `Set` object identities of the
three parameter sets (to express that `_processParameters` swaps set objects
instead of reallocating), and the compiled-variant cache `variants`.

`parameters`, `variants` and `setParameter`/`clearVariants` live on the base
class `Material` (`scene/materials/material.js`), which is not under src;
they are modelled from the spec: the bound-parameter table maps parameter
names to values, and the variant cache is dropped when invalidated. -/
structure MatState where
  props : Material
  dirtyShader : Bool
  activeParams : List PKey
  activeLightingParams : List PKey
  tmpParams : List PKey
  parameters : List (PKey × PValue)
  uniformCache : List (String × CachedUniform)
  nextAllocId : ℕ
  activeParamsId : ℕ
  activeLightingParamsId : ℕ
  tmpParamsId : ℕ
  variants : List ℕ

/-- Model of `_processParameters` (lines 614-625), deletion half: every parameter that
was in the active set of the previous pass but not in the temporary set of this
pass is deleted from the bound-parameter table. -/
def processParameters (prev tmp : List PKey) (table : List (PKey × PValue)) :
    List (PKey × PValue) :=
  prev.foldl (fun t k => if k ∈ tmp then t else aremove t k) table

/-- Model of `updateUniforms(device, scene)` (lines 655-791).  The emission sequence
(`uuChunks`) produces the ordered list of `_setParameter` calls while
threading the uniform cache, allocation counter and dirty flag (the two state
halves are disjoint in the source, so the interleaving is immaterial);
`_setParameter` adds each key to the temporary set and binds the value in the
parameter table; `_processParameters` on `_activeParams` then deletes stale
parameters, installs the temporary set as `_activeParams` and recycles the
previous set object (cleared) as the new temporary set; finally
`clearVariants()` drops the compiled variants when the shader is dirty. -/
def updateUniforms (ops : FloatOps) (st : MatState) (scene : Scene) : MatState :=
  let r := runDescs (uuChunks ops st.props scene)
    { cache := st.uniformCache, ctr := st.nextAllocId, dirty := st.dirtyShader }
  let tmp := r.1.foldl (fun l kv => jsSetAdd l kv.1) st.tmpParams
  let table := r.1.foldl (fun t kv => aset t kv.1 kv.2) st.parameters
  { st with
    dirtyShader := r.2.dirty
    uniformCache := r.2.cache
    nextAllocId := r.2.ctr
    parameters := processParameters st.activeParams tmp table
    activeParams := tmp
    tmpParams := []
    activeParamsId := st.tmpParamsId
    tmpParamsId := st.activeParamsId
    variants := if r.2.dirty then [] else st.variants }

/-- The emission list of `updateEnvUniforms` (lines 793-810): scene-level
environment textures are bound only when the material has no local override
and uses the skybox; a non-identity skybox rotation additionally binds the
rotation matrix. -/
def envUniformParams (m : Material) (scene : Scene) : List (PKey × PValue) :=
  let isPhong := decide (m.shadingModel = SPECULAR_PHONG)
  let hasLocalEnvOverride := (m.envAtlas.isSome && !isPhong) || m.cubeMap.isSome ||
    m.sphereMap.isSome
  if !hasLocalEnvOverride && m.useSkybox then
    (match scene.envAtlas, scene.skybox with
     | some ea, some sb =>
        if !isPhong then
          [(.str "texture_envAtlas", .tex ea), (.str "texture_cubeMap", .tex sb)]
        else [(.str "texture_cubeMap", .tex sb)]
     | some ea, none =>
        if !isPhong then [(.str "texture_envAtlas", .tex ea)] else []
     | none, some sb => [(.str "texture_cubeMap", .tex sb)]
     | none, none => []) ++
    (match scene.skyboxRotMat3Data with
     | some data =>
        if scene.skyboxRot ≠ quatIdentity then
          [(.str "cubeMapRotationMatrix", .listv data)]
        else []
     | none => [])
  else []

/-- Model of `updateEnvUniforms(device, scene)` (lines 793-813): emit the scene
environment parameters, then `_processParameters` on `_activeLightingParams`. -/
def updateEnvUniforms (st : MatState) (scene : Scene) : MatState :=
  let emitted := envUniformParams st.props scene
  let tmp := emitted.foldl (fun l kv => jsSetAdd l kv.1) st.tmpParams
  let table := emitted.foldl (fun t kv => aset t kv.1 kv.2) st.parameters
  { st with
    parameters := processParameters st.activeLightingParams tmp table
    activeLightingParams := tmp
    tmpParams := []
    activeLightingParamsId := st.tmpParamsId
    tmpParamsId := st.activeLightingParamsId }

/-- The `<name>MapTransform` uniform function registered by `_defineTex2D`
(lines 982-1017), as invoked by `_updateMap` via `getUniform`: returns `null`
for the identity transform, otherwise allocates/reuses and fills the cached
pair uniform. -/
def mapTransformUniform (ops : FloatOps) (m : Material) (p : String) (s : EmitSt) :
    Option PairUniform × EmitSt :=
  let slot := m.texSlots p
  if isIdentityTransform slot then (none, s)
  else
    let r := cacheStep (p ++ "MapTransform") (transformBuild ops slot p) s
    (match r.1 with
     | .cpair pr => some pr
     | .carr _ => none, r.2)

/-- The color uniform function registered by `_defineColor` (lines
1034-1050), as invoked via `getUniform`: allocates/reuses the cached
`Float32Array(3)`, reads the color through the volatile getter (marking the
shader dirty), and fills the array (gamma-corrected when both the material
and the scene ask for it). -/
def colorUniformStep (ops : FloatOps) (m : Material) (scene : Scene) (name : String)
    (c : ColorRGB) (s : EmitSt) : F32Arr3 × EmitSt :=
  let r := cacheStep name (colorBuild ops m scene c) s
  (match r.1 with
   | .carr a => a
   | .cpair _ => { allocId := 0, v0 := 0, v1 := 0, v2 := 0 },
   { r.2 with dirty := true })

/-- A scalar/flag property value (`defineValueProp` properties hold numbers,
strings, booleans or nullable object references). -/
inductive PropVal where
  | num (q : ℚ)
  | boolean (b : Bool)
  | strv (s : String)
  | texv (t : Option Texture)
deriving DecidableEq, Repr

/-- A scalar/flag property registered through `defineValueProp`: its getter
and setter on the property record, and its dirty predicate
(`dirtyShaderFunc`, defaulting to `() => true` at registration when the
descriptor has none). -/
structure ValueProp where
  get : Material → PropVal
  set : Material → PropVal → Material
  dirtyShaderFunc : PropVal → PropVal → Bool

/-- The setter installed by `defineValueProp` (lines 882-888): when the new
value is strictly different from the stored one, the dirty predicate of
(old, new) may raise `_dirtyShader`, and the value is stored. -/
def setValueProp (p : ValueProp) (st : MatState) (value : PropVal) : MatState :=
  let oldValue := p.get st.props
  if oldValue = value then st
  else { st with
    dirtyShader := st.dirtyShader || p.dirtyShaderFunc oldValue value
    props := p.set st.props value }

/-- An aggregate (color/vector) property registered through `defineAggProp`. -/
structure AggProp where
  get : Material → ColorRGB
  set : Material → ColorRGB → Material
  dirtyShaderFunc : ColorRGB → ColorRGB → Bool

/-- The setter installed by `defineAggProp` (lines 898-904): compares with
`equals`, applies the dirty predicate, and copies the value into the owned
storage. -/
def setAggProp (p : AggProp) (st : MatState) (value : ColorRGB) : MatState :=
  let oldValue := p.get st.props
  if oldValue = value then st
  else { st with
    dirtyShader := st.dirtyShader || p.dirtyShaderFunc oldValue value
    props := p.set st.props value }

/-- The volatile getter installed by `_defineColor` (lines 1024-1031): reading
a color property flags the shader dirty before returning the aggregate,
because the caller may mutate it in place. -/
def readColorProp (get : Material → ColorRGB) (st : MatState) : ColorRGB × MatState :=
  (get st.props, { st with dirtyShader := true })

/-- Whether a property value is the number 0 or the number 1 (the values that
switch a float property between constant-folded and uniform-driven shader
code). -/
def isZeroOneVal : PropVal → Bool
  | .num q => decide (q = 0) || decide (q = 1)
  | _ => false

/-- The dirty predicate `_defineFloat` installs for every float property
(lines 1057-1063): recompile only when exactly one of old/new lies in
{0, 1}. -/
def floatDirtyShaderFunc (oldValue newValue : PropVal) : Bool :=
  isZeroOneVal oldValue != isZeroOneVal newValue

/-- The dirty predicate `_defineTex2D` installs for `<name>Map` properties
(lines 921-926): boundness change, or a change of `type`, `fixCubemapSeams`
or `format` while a texture stays bound. -/
def texMapDirtyShaderFunc (oldValue newValue : Option Texture) : Bool :=
  (oldValue.isSome != newValue.isSome) ||
  (match oldValue, newValue with
   | some o, some n =>
      decide (o.ttype ≠ n.ttype) || decide (o.fixCubemapSeams ≠ n.fixCubemapSeams) ||
        decide (o.format ≠ n.format)
   | _, _ => false)

/-- Modelled from the spec: the Options bag built by
`StandardMaterialOptionsBuilder` (`standard-material-options-builder.js`, not
under src).  Treated as an opaque structured value; the claims about
`getShaderVariant` concern only when the builder runs and what flows into the
program fetch. -/
structure SMOptions where
  tag : ℕ
deriving DecidableEq, Repr

/-- The `ShaderProcessorOptions(viewUniformFormat, viewBindGroupFormat)`
value. -/
structure ProcOptions where
  viewUniformFormat : ℕ
  viewBindGroupFormat : ℕ
deriving DecidableEq, Repr

/-- Events of one `getShaderVariant` call, in execution order: the
`updateEnvUniforms` call, the options-builder run (`updateMinRef` for
depth/shadow/pick passes, `updateRef` otherwise), the optional
`onUpdateShader` user hook, and the program-library fetch. -/
inductive SVEvent where
  | envUpdate
  | builderMin (o : SMOptions)
  | builderFull (o : SMOptions)
  | hookCall (input output : SMOptions)
  | progFetch (o : SMOptions) (proc : ProcOptions)
deriving DecidableEq, Repr

/-- External collaborators of `getShaderVariant`: the two builder entry
points (modelled from the spec as black-box functions of scene, material and
per-draw state), `ShaderPass.isShadow` (not under src), and the device
program library `getProgram` (black box returning a compiled program id). -/
structure ShaderEnv where
  updateRef : Scene → Material → ℕ → ℕ → ℕ → SMOptions
  updateMinRef : Scene → Material → ℕ → ℕ → ℕ → SMOptions
  isShadowPass : ℕ → Bool
  getProgram : SMOptions → ProcOptions → ℕ

/-- Model of `getShaderVariant` (lines 815-842): update the prefiltered lighting
parameters, build the Options through the minimal or full builder path, let
the `onUpdateShader` override rewrite them, fetch the program for
(options, processing options) from the library, and clear `_dirtyShader`.
Returns the program, the new state, and the event trace. -/
def getShaderVariant (env : ShaderEnv) (hook : Option (SMOptions → SMOptions))
    (st : MatState) (scene : Scene) (objDefs pass sortedLights : ℕ)
    (viewUniformFormat viewBindGroupFormat : ℕ) :
    ℕ × MatState × List SVEvent :=
  let st1 := updateEnvUniforms st scene
  let minimalOptions := decide (pass = SHADER_DEPTH) || decide (pass = SHADER_PICK) ||
    env.isShadowPass pass
  let builtOptions :=
    if minimalOptions then env.updateMinRef scene st1.props objDefs pass sortedLights
    else env.updateRef scene st1.props objDefs pass sortedLights
  let buildEvent :=
    if minimalOptions then SVEvent.builderMin builtOptions
    else SVEvent.builderFull builtOptions
  let hookStep :=
    match hook with
    | some h => (h builtOptions, [SVEvent.hookCall builtOptions (h builtOptions)])
    | none => (builtOptions, [])
  let processingOptions : ProcOptions :=
    { viewUniformFormat := viewUniformFormat, viewBindGroupFormat := viewBindGroupFormat }
  let program := env.getProgram hookStep.1 processingOptions
  (program, { st1 with dirtyShader := false },
    [SVEvent.envUpdate, buildEvent] ++ hookStep.2 ++
      [SVEvent.progFetch hookStep.1 processingOptions])

/-- A directional light as seen by `RenderAction.collectDirectionalLights`:
`lid` models JavaScript object identity, `castShadows` the only field read. -/
structure Light where
  lid : ℕ
  castShadows : Bool
deriving DecidableEq, Repr

/-- A layer as seen by `collectDirectionalLights`: its precomputed
`_splitLights[LIGHTTYPE_DIRECTIONAL]` list. -/
structure LayerRec where
  splitLightsDirectional : List Light
deriving DecidableEq, Repr

/-- JavaScript `Array.prototype.indexOf`: first index of the element, or -1
when absent. -/
def jsIndexOf {α : Type} [DecidableEq α] : List α → α → ℤ
  | [], _ => -1
  | a :: rest, x =>
      if a = x then 0
      else
        let r := jsIndexOf rest x
        if r = -1 then -1 else r + 1

/-- The three light stores of a `RenderAction` touched by
`collectDirectionalLights` (part_001, lines 52-58): a set (insertion-ordered
list used set-wise), the parallel array, and the parallel indices into the
global light list of the composition. -/
structure RenderAction where
  directionalLightsSet : List Light
  directionalLights : List Light
  directionalLightsIndices : List ℤ
deriving DecidableEq, Repr

/-- Model of `RenderAction.reset()` (part_001, lines 79-84), restricted to the light
stores (the cluster reference is external state). -/
def RenderAction.reset (ra : RenderAction) : RenderAction :=
  { ra with
    directionalLightsSet := []
    directionalLights := []
    directionalLightsIndices := [] }

/-- The body of the inner layer loop of `collectDirectionalLights` (part_001,
lines 107-121) for one light and one layer. -/
def collectLayerStep (allLights : List Light) (light : Light) (acc : RenderAction)
    (layer : LayerRec) : RenderAction :=
  if 0 ≤ jsIndexOf layer.splitLightsDirectional light then
    if light ∈ acc.directionalLightsSet then acc
    else
      { acc with
        directionalLightsSet := acc.directionalLightsSet ++ [light]
        directionalLights := acc.directionalLights ++ [light]
        directionalLightsIndices := acc.directionalLightsIndices ++
          [jsIndexOf allLights light] }
  else acc

/-- Model of `RenderAction.collectDirectionalLights(cameraLayers, dirLights,
allLights)` (part_001, lines 96-124): clear the three stores, then for every
shadow-casting directional light and every camera layer containing it, add it
once to the set, the array and the index array. -/
def collectDirectionalLights (ra : RenderAction) (cameraLayers : List LayerRec)
    (dirLights allLights : List Light) : RenderAction :=
  let ra0 : RenderAction :=
    { ra with
      directionalLightsSet := []
      directionalLights := []
      directionalLightsIndices := [] }
  dirLights.foldl
    (fun acc light =>
      if light.castShadows then
        cameraLayers.foldl (collectLayerStep allLights light) acc
      else acc)
    ra0

/-- The operations a frame may perform on a material between shader fetches:
scalar/flag property sets (`defineValueProp` setters), aggregate property
sets (`defineAggProp` setters), volatile color reads, plain property reads,
`updateUniforms`, `updateEnvUniforms`, and direct parameter re-uploads
(`setParameter`, base class, modelled from the spec as a table write). -/
inductive MatAction where
  | setValue (p : ValueProp) (v : PropVal)
  | setAgg (p : AggProp) (v : ColorRGB)
  | readColor (get : Material → ColorRGB)
  | readPlain
  | runUpdateUniforms (ops : FloatOps) (scene : Scene)
  | runUpdateEnvUniforms (scene : Scene)
  | reuploadParameter (k : PKey) (v : PValue)

/-- Effect of one material operation on the material state. -/
def MatAction.apply : MatAction → MatState → MatState
  | .setValue p v, st => setValueProp p st v
  | .setAgg p v, st => setAggProp p st v
  | .readColor g, st => (readColorProp g st).2
  | .readPlain, st => st
  | .runUpdateUniforms ops scene, st => updateUniforms ops st scene
  | .runUpdateEnvUniforms scene, st => updateEnvUniforms st scene
  | .reuploadParameter k v, st => { st with parameters := aset st.parameters k v }

/-- Run a sequence of material operations. -/
def runMatActions (acts : List MatAction) (st : MatState) : MatState :=
  acts.foldl (fun s a => a.apply s) st

/-- The uniform-cache keys of the `updateUniforms` emission sequence, one
entry per step: the six color names guard the color uniforms, the map
transforms are keyed per texture slot, and `cubeMapProjectionBox` has its
own entry; all other steps touch no cache key. -/
def uuKeysList : List (List String) :=
  [["ambient"], ["diffuse"], [], ["specular"], [], ["sheen"], [], [], [], [],
   [], ["emissive"], [], [], [], ["attenuation"], [], [], [], [], [],
   ["cubeMapProjectionBox"]]
  ++ matTex2D.flatMap (fun p => [[], [p ++ "MapTransform"]])
  ++ [[], [], [], [], [], []]

/-- Disjointness of two key lists. -/
def disjointKeyLists (a b : List String) : Prop := ∀ k ∈ a, k ∉ b

instance : DecidableRel disjointKeyLists := fun a b =>
  List.decidableBAll (fun k => k ∉ b) a

theorem uuChunks_keys (ops : FloatOps) (m : Material) (scene : Scene) :
    (uuChunks ops m scene).map ChunkDesc.keys = uuKeysList := rfl

theorem uuChunks_good (ops : FloatOps) (m : Material) (scene : Scene) :
    ∀ d ∈ uuChunks ops m scene, d.good := by
  intro d hd
  simp only [uuChunks, slotDescs, colorDesc, List.mem_append, List.mem_cons,
    List.mem_flatMap, List.not_mem_nil, or_false] at hd
  rcases hd with (hd | ⟨p, hp, hd⟩) | hd
  · rcases hd with rfl|rfl|rfl|rfl|rfl|rfl|rfl|rfl|rfl|rfl|rfl|rfl|rfl|rfl|rfl|rfl|rfl|rfl|rfl|rfl|rfl|rfl <;>
      first
        | trivial
        | exact fun f => rfl
  · rcases hd with rfl | rfl
    · trivial
    · exact fun f => rfl
  · rcases hd with rfl|rfl|rfl|rfl|rfl|rfl <;> trivial

theorem uuChunks_disjoint (ops : FloatOps) (m : Material) (scene : Scene) :
    KeysDisjoint (uuChunks ops m scene) := by
  have hp : uuKeysList.Pairwise disjointKeyLists := by decide
  rw [← uuChunks_keys ops m scene] at hp
  rw [List.pairwise_map] at hp
  exact hp

theorem mem_jsSetAdd_of_mem {α : Type} [DecidableEq α] (l : List α) (x y : α)
    (h : x ∈ l) : x ∈ jsSetAdd l y := by
  unfold jsSetAdd
  split
  · exact h
  · exact List.mem_append_left _ h

theorem mem_foldl_jsSetAdd_init (E : List (PKey × PValue)) (init : List PKey) (x : PKey)
    (h : x ∈ init) : x ∈ E.foldl (fun l kv => jsSetAdd l kv.1) init := by
  induction E generalizing init with
  | nil => exact h
  | cons e es ih => exact ih _ (mem_jsSetAdd_of_mem _ _ _ h)

theorem mem_jsSetAdd_self {α : Type} [DecidableEq α] (l : List α) (x : α) :
    x ∈ jsSetAdd l x := by
  unfold jsSetAdd
  split
  · assumption
  · exact List.mem_append_right _ (List.mem_singleton.mpr rfl)

theorem mem_foldl_jsSetAdd_of_mem (E : List (PKey × PValue)) (init : List PKey)
    (kv : PKey × PValue) (h : kv ∈ E) :
    kv.1 ∈ E.foldl (fun l x => jsSetAdd l x.1) init := by
  induction E generalizing init with
  | nil => simp at h
  | cons e es ih =>
    rcases List.mem_cons.mp h with rfl | h2
    · exact mem_foldl_jsSetAdd_init es _ _ (mem_jsSetAdd_self _ _)
    · exact ih _ h2

theorem alookup_aremove_none {α β : Type} [DecidableEq α] (l : List (α × β)) (k q : α)
    (h : alookup l k = none) : alookup (aremove l q) k = none := by
  by_cases hq : k = q
  · subst hq
    exact alookup_aremove_self l k
  · rw [alookup_aremove_ne l q k hq]
    exact h

theorem processParameters_none_preserved (prev tmp : List PKey)
    (table : List (PKey × PValue)) (k : PKey) (h : alookup table k = none) :
    alookup (processParameters prev tmp table) k = none := by
  induction prev generalizing table with
  | nil => exact h
  | cons q qs ih =>
    simp only [processParameters, List.foldl_cons]
    by_cases hq : q ∈ tmp
    · simp only [if_pos hq]
      exact ih table h
    · simp only [if_neg hq]
      exact ih _ (alookup_aremove_none table k q h)

/-- The set-difference cleanup of `_processParameters`: a key of the previous
active set that is absent from the current temporary set is no longer bound
in the parameter table. -/
theorem processParameters_removed (prev tmp : List PKey) (table : List (PKey × PValue))
    (k : PKey) (hk : k ∈ prev) (hn : k ∉ tmp) :
    alookup (processParameters prev tmp table) k = none := by
  induction prev generalizing table with
  | nil => simp at hk
  | cons q qs ih =>
    simp only [processParameters, List.foldl_cons]
    rcases List.mem_cons.mp hk with rfl | h2
    · simp only [if_neg hn]
      exact processParameters_none_preserved qs tmp _ k (alookup_aremove_self table k)
    · by_cases hq : q ∈ tmp
      · simp only [if_pos hq]
        exact ih _ h2
      · simp only [if_neg hq]
        exact ih _ h2

/-- Eta for the emit state (used to collapse rebuilt states). -/
theorem EmitSt.eta (s : EmitSt) :
    ({ cache := s.cache, ctr := s.ctr, dirty := s.dirty } : EmitSt) = s := rfl

/-- Sample transcendental operations for concrete evaluations. -/
def sampleOps : FloatOps :=
  { cos := fun _ => 1, sin := fun _ => 0, pow := fun b _ => b, degToRad := 0 }

/-- A concrete material for witnesses, following the registered defaults
(`reset()`, lines 542-554) with the fractional defaults replaced by
integer-valued rationals so that concrete evaluation stays on literals. -/
def sampleMaterial : Material :=
  { texSlots := fun _ => defaultTexSlot
  , ambient := { r := 1, g := 1, b := 1 }
  , diffuse := { r := 1, g := 1, b := 1 }
  , specular := { r := 0, g := 0, b := 0 }
  , emissive := { r := 0, g := 0, b := 0 }
  , sheen := { r := 1, g := 1, b := 1 }
  , attenuation := { r := 1, g := 1, b := 1 }
  , diffuseTint := false
  , specularTint := false
  , specularityFactorTint := false
  , emissiveTint := false
  , useMetalness := false
  , enableGGXSpecular := false
  , useDynamicRefraction := false
  , useIridescence := false
  , opacityFadesSpecular := true
  , useGammaTonemap := true
  , useSkybox := true
  , metalness := 1
  , specularityFactor := 1
  , sheenGlossiness := 0
  , refractionIndex := 1
  , anisotropy := 0
  , clearCoat := 0
  , clearCoatGlossiness := 1
  , clearCoatBumpiness := 1
  , shininess := 25
  , emissiveIntensity := 1
  , refraction := 0
  , thickness := 0
  , attenuationDistance := 0
  , iridescence := 0
  , iridescenceRefractionIndex := 1
  , iridescenceThicknessMin := 0
  , iridescenceThicknessMax := 0
  , opacity := 1
  , alphaFade := 1
  , occludeSpecularIntensity := 1
  , bumpiness := 1
  , normalDetailMapBumpiness := 1
  , heightMapFactor := 1
  , reflectivity := 1
  , occludeSpecular := 1
  , cubeMapProjection := CUBEPROJ_NONE
  , shadingModel := SPECULAR_BLINN
  , ambientSH := none
  , envAtlas := none
  , cubeMap := none
  , sphereMap := none
  , cubeMapProjectionBox := { minX := 0, minY := 0, minZ := 0, maxX := 0, maxY := 0, maxZ := 0 } }

/-- A scene with gamma correction on and no skybox. -/
def sampleScene : Scene :=
  { gammaCorrection := true, envAtlas := none, skybox := none
  , skyboxRot := quatIdentity, skyboxRotMat3Data := none }

/-- A freshly constructed material state (constructor, lines 526-554):
`_dirtyShader` true, empty parameter sets and caches. -/
def sampleState : MatState :=
  { props := sampleMaterial
  , dirtyShader := true
  , activeParams := []
  , activeLightingParams := []
  , tmpParams := []
  , parameters := []
  , uniformCache := []
  , nextAllocId := 0
  , activeParamsId := 0
  , activeLightingParamsId := 1
  , tmpParamsId := 2
  , variants := [] }

/-- Sample shader-variant collaborators. -/
def sampleEnv : ShaderEnv :=
  { updateRef := fun _ _ _ _ _ => { tag := 0 }
  , updateMinRef := fun _ _ _ _ _ => { tag := 1 }
  , isShadowPass := fun _ => false
  , getProgram := fun o _ => o.tag }

/-- The `opacity` property as registered by `_defineFloat` for `opacity` with default 1. -/
def opacityProp : ValueProp :=
  { get := fun m => .num m.opacity
  , set := fun m v => { m with opacity := match v with | .num q => q | _ => m.opacity }
  , dirtyShaderFunc := floatDirtyShaderFunc }

/-- C1: for every material state, transcendental-operation interpretation and
scene, calling `updateUniforms` a second time with no intervening property
change produces exactly the same `_activeParams` set as the first call, and
leaves `_dirtyShader` at its value after the first call.  The hypothesis
states the standing invariant that the temporary `_params` set is empty
between update passes. -/
theorem updateUniforms_idempotent (ops : FloatOps) (st : MatState) (scene : Scene)
    (h : st.tmpParams = []) :
    (updateUniforms ops (updateUniforms ops st scene) scene).activeParams =
      (updateUniforms ops st scene).activeParams ∧
    (updateUniforms ops (updateUniforms ops st scene) scene).dirtyShader =
      (updateUniforms ops st scene).dirtyShader := by
  have hidem := runDescs_idem (uuChunks ops st.props scene)
    (uuChunks_good ops st.props scene) (uuChunks_disjoint ops st.props scene)
    { cache := st.uniformCache, ctr := st.nextAllocId, dirty := st.dirtyShader }
  simp only [updateUniforms]
  rw [EmitSt.eta, hidem, h]
  exact ⟨rfl, rfl⟩

/-- Witness for the idempotence claim: a freshly constructed material with
default properties satisfies the empty-temporary-set invariant, and the
second `updateUniforms` pass reproduces the first. -/
theorem updateUniforms_idempotent_witness :
    sampleState.tmpParams = [] ∧
    ((updateUniforms sampleOps (updateUniforms sampleOps sampleState sampleScene)
        sampleScene).activeParams =
      (updateUniforms sampleOps sampleState sampleScene).activeParams ∧
    (updateUniforms sampleOps (updateUniforms sampleOps sampleState sampleScene)
        sampleScene).dirtyShader =
      (updateUniforms sampleOps sampleState sampleScene).dirtyShader) :=
  ⟨rfl, updateUniforms_idempotent sampleOps sampleState sampleScene rfl⟩

/-- C2: for every scalar/flag property installed by `defineValueProp`,
setting it to a strictly equal value never changes `_dirtyShader`; setting it
to a different value on which the dirty predicate returns true always leaves
`_dirtyShader` true; and `getShaderVariant` always returns with
`_dirtyShader` false. -/
theorem dirty_tracking (p : ValueProp) (st : MatState) (v : PropVal)
    (env : ShaderEnv) (hook : Option (SMOptions → SMOptions)) (scene : Scene)
    (objDefs pass sortedLights vuf vbf : ℕ) :
    (p.get st.props = v → (setValueProp p st v).dirtyShader = st.dirtyShader) ∧
    (p.get st.props ≠ v → p.dirtyShaderFunc (p.get st.props) v = true →
      (setValueProp p st v).dirtyShader = true) ∧
    (getShaderVariant env hook st scene objDefs pass sortedLights vuf
      vbf).2.1.dirtyShader = false := by
  refine ⟨?_, ?_, ?_⟩
  · intro he
    simp [setValueProp, he]
  · intro hne hpred
    simp [setValueProp, hne, hpred]
  · rfl

/-- A material state with a clean shader flag, for dirty-transition
witnesses. -/
def sampleStateClean : MatState := { sampleState with dirtyShader := false }

/-- Witness for the dirty-tracking claim on the `opacity` float property:
re-setting the default 1 keeps the flag, setting 5 (leaving {0,1}) raises
it, and a variant fetch clears it. -/
theorem dirty_tracking_witness :
    ((setValueProp opacityProp sampleState (.num 1)).dirtyShader =
      sampleState.dirtyShader) ∧
    ((setValueProp opacityProp sampleStateClean (.num 5)).dirtyShader = true) ∧
    ((getShaderVariant sampleEnv none sampleState sampleScene 0 0 0 0
      0).2.1.dirtyShader = false) :=
  ⟨(dirty_tracking opacityProp sampleState (.num 1) sampleEnv none sampleScene
      0 0 0 0 0).1 (by decide),
   (dirty_tracking opacityProp sampleStateClean (.num 5) sampleEnv none
      sampleScene 0 0 0 0 0).2.1 (by decide) (by decide),
   (dirty_tracking opacityProp sampleState (.num 1) sampleEnv none sampleScene
      0 0 0 0 0).2.2⟩

theorem matAction_dirty_mono (a : MatAction) (st : MatState)
    (h : st.dirtyShader = true) : (a.apply st).dirtyShader = true := by
  cases a with
  | setValue p v =>
    simp only [MatAction.apply, setValueProp]
    split
    · exact h
    · simp [h]
  | setAgg p v =>
    simp only [MatAction.apply, setAggProp]
    split
    · exact h
    · simp [h]
  | readColor g => rfl
  | readPlain => exact h
  | runUpdateUniforms ops scene =>
    simp only [MatAction.apply, updateUniforms]
    rw [runDescs_dirty]
    simp [h]
  | runUpdateEnvUniforms scene => exact h
  | reuploadParameter k v => exact h

/-- C4: `_dirtyShader` is cleared only by `getShaderVariant`: across any
sequence of property sets, property reads, `updateUniforms` /
`updateEnvUniforms` calls and parameter re-uploads — the material operations
that do not fetch a variant — the flag never drops from true to false. -/
theorem dirty_cleared_only_by_variant (acts : List MatAction) (st : MatState)
    (h : st.dirtyShader = true) : (runMatActions acts st).dirtyShader = true := by
  induction acts generalizing st with
  | nil => exact h
  | cons a as ih => exact ih (a.apply st) (matAction_dirty_mono a st h)

/-- Witness for the dirty-persistence claim: a read, a full uniform update and
a parameter re-upload leave a dirty material dirty. -/
theorem dirty_cleared_only_by_variant_witness :
    (runMatActions
      [MatAction.readPlain, MatAction.runUpdateUniforms sampleOps sampleScene,
       MatAction.reuploadParameter (PKey.str "material_opacity") (PValue.num 1)]
      sampleState).dirtyShader = true :=
  dirty_cleared_only_by_variant _ sampleState rfl

/-- C7: reading any of the six color properties through its getter flags the
shader dirty as a side effect, before any mutation of the returned value can
happen. -/
theorem color_read_marks_dirty (st : MatState) :
    ((readColorProp Material.ambient st).2.dirtyShader = true) ∧
    ((readColorProp Material.diffuse st).2.dirtyShader = true) ∧
    ((readColorProp Material.specular st).2.dirtyShader = true) ∧
    ((readColorProp Material.emissive st).2.dirtyShader = true) ∧
    ((readColorProp Material.sheen st).2.dirtyShader = true) ∧
    ((readColorProp Material.attenuation st).2.dirtyShader = true) :=
  ⟨rfl, rfl, rfl, rfl, rfl, rfl⟩

/-- C9: for a float property carrying the standard `_defineFloat` predicate,
setting a value different from the stored one raises `_dirtyShader` exactly
when one of old/new lies in {0, 1} and the other does not; in particular a
change between two values both outside {0, 1} never dirties the shader. -/
theorem float_dirty_predicate (p : ValueProp) (st : MatState) (v : PropVal)
    (hpred : p.dirtyShaderFunc = floatDirtyShaderFunc)
    (hne : p.get st.props ≠ v) (hclean : st.dirtyShader = false) :
    ((setValueProp p st v).dirtyShader = true ↔
      isZeroOneVal (p.get st.props) ≠ isZeroOneVal v) := by
  simp only [setValueProp, if_neg hne, hpred, hclean]
  simp [floatDirtyShaderFunc]

/-- Witness for the float-predicate claim: moving `opacity` from its default
1 to 5 leaves {0, 1}, so the shader is flagged. -/
theorem float_dirty_predicate_witness :
    (setValueProp opacityProp sampleStateClean (.num 5)).dirtyShader = true ↔
      isZeroOneVal (opacityProp.get sampleStateClean.props) ≠
        isZeroOneVal (.num 5) :=
  float_dirty_predicate opacityProp sampleStateClean (.num 5) rfl
    (by decide) rfl

/-- C5: the `<name>MapTransform` uniform function returns `null` exactly when
tiling is (1,1), offset is (0,0) and rotation is 0; on any deviation it
returns the pair of `texture_<name>MapTransform0` /
`texture_<name>MapTransform1` parameters. -/
theorem transform_identity_elision (ops : FloatOps) (m : Material) (p : String)
    (s : EmitSt) :
    ((mapTransformUniform ops m p s).1.map (fun pr => (pr.fst.name, pr.snd.name))) =
      (if isIdentityTransform (m.texSlots p) then none
       else some ("texture_" ++ p ++ "MapTransform0",
                  "texture_" ++ p ++ "MapTransform1")) := by
  unfold mapTransformUniform
  by_cases hid : isIdentityTransform (m.texSlots p) = true
  · simp [hid]
  · obtain ⟨f, hf⟩ := cacheStep_built (p ++ "MapTransform")
      (transformBuild ops (m.texSlots p) p) s
    simp only [hid, Bool.false_eq_true, if_false, eq_self_iff_true]
    rw [hf]
    rfl

/-- C10: the color uniform holds the componentwise 2.2-power of the stored
color when both `material.useGammaTonemap` and `scene.gammaCorrection` hold,
and the raw components otherwise; calling the uniform function again returns
the same cached `Float32Array` (same allocation identity) and leaves the
uniform-cache state unchanged. -/
theorem color_uniform_gamma (ops : FloatOps) (m : Material) (scene : Scene)
    (name : String) (c : ColorRGB) (s : EmitSt) :
    (((colorUniformStep ops m scene name c s).1.v0,
      (colorUniformStep ops m scene name c s).1.v1,
      (colorUniformStep ops m scene name c s).1.v2) =
      (if m.useGammaTonemap && scene.gammaCorrection then
        (ops.pow c.r (11 / 5), ops.pow c.g (11 / 5), ops.pow c.b (11 / 5))
       else (c.r, c.g, c.b))) ∧
    ((colorUniformStep ops m scene name c
        ((colorUniformStep ops m scene name c s).2)).1.allocId =
      (colorUniformStep ops m scene name c s).1.allocId) ∧
    ((colorUniformStep ops m scene name c
        ((colorUniformStep ops m scene name c s).2)).2 =
      (colorUniformStep ops m scene name c s).2) := by
  have hgood : ∀ f, colorBuild ops m scene c (reuseIds (colorBuild ops m scene c f)) =
      colorBuild ops m scene c f := fun f => rfl
  obtain ⟨f0, hf0⟩ := cacheStep_built name (colorBuild ops m scene c) s
  have hself := cacheStep_lookup_self name (colorBuild ops m scene c) s
  have hlook : alookup ((colorUniformStep ops m scene name c s).2).cache name =
      some (colorBuild ops m scene c f0) := by
    show alookup ((cacheStep name (colorBuild ops m scene c) s).2).cache name = _
    rw [hself, hf0]
  have hst := cacheStep_stable name (colorBuild ops m scene c) hgood f0
    ((colorUniformStep ops m scene name c s).2) hlook
  have htd : ((colorUniformStep ops m scene name c s).2).dirty = true := rfl
  refine ⟨?_, ?_, ?_⟩
  · have h1 : (colorUniformStep ops m scene name c s).1 =
        match colorBuild ops m scene c f0 with
        | .carr a => a
        | .cpair _ => { allocId := 0, v0 := 0, v1 := 0, v2 := 0 } := by
      show (match (cacheStep name (colorBuild ops m scene c) s).1 with
        | CachedUniform.carr a => a
        | CachedUniform.cpair _ => { allocId := 0, v0 := 0, v1 := 0, v2 := 0 }) = _
      rw [hf0]
    rw [h1]
    by_cases hg : (m.useGammaTonemap && scene.gammaCorrection) = true <;>
      simp [colorBuild, hg]
  · have h2 : (colorUniformStep ops m scene name c
        ((colorUniformStep ops m scene name c s).2)).1 =
        match colorBuild ops m scene c f0 with
        | .carr a => a
        | .cpair _ => { allocId := 0, v0 := 0, v1 := 0, v2 := 0 } := by
      show (match (cacheStep name (colorBuild ops m scene c)
          ((colorUniformStep ops m scene name c s).2)).1 with
        | CachedUniform.carr a => a
        | CachedUniform.cpair _ => { allocId := 0, v0 := 0, v1 := 0, v2 := 0 }) = _
      rw [hst]
    have h1 : (colorUniformStep ops m scene name c s).1 =
        match colorBuild ops m scene c f0 with
        | .carr a => a
        | .cpair _ => { allocId := 0, v0 := 0, v1 := 0, v2 := 0 } := by
      show (match (cacheStep name (colorBuild ops m scene c) s).1 with
        | CachedUniform.carr a => a
        | CachedUniform.cpair _ => { allocId := 0, v0 := 0, v1 := 0, v2 := 0 }) = _
      rw [hf0]
    rw [h2, h1]
  · show ({ (cacheStep name (colorBuild ops m scene c)
        ((colorUniformStep ops m scene name c s).2)).2 with dirty := true } : EmitSt) = _
    rw [hst]
    cases hcur : (colorUniformStep ops m scene name c s).2 with
    | mk cache2 ctr2 dirty2 =>
      rw [hcur] at htd
      simp only at htd
      simp [htd]

/-- C6: a parameter name that was in the active set of the previous update
pass but is not registered during the next pass is deleted from the
bound-parameter table by that pass, and the previous/current active-parameter
set objects are exchanged (the identities swap) rather than reallocated. -/
theorem param_cleanup (ops : FloatOps) (st : MatState) (scene : Scene) (k : PKey)
    (hk : k ∈ st.activeParams)
    (hgone : k ∉ (updateUniforms ops st scene).activeParams) :
    alookup (updateUniforms ops st scene).parameters k = none ∧
    (updateUniforms ops st scene).activeParamsId = st.tmpParamsId ∧
    (updateUniforms ops st scene).tmpParamsId = st.activeParamsId := by
  refine ⟨?_, rfl, rfl⟩
  exact processParameters_removed st.activeParams _ _ k hk hgone

/-- A material state whose previous pass left a stale active parameter that
the default material never emits. -/
def sampleStateStale : MatState :=
  { sampleState with
    activeParams := [PKey.str "material_oldJunk"]
    parameters := [(PKey.str "material_oldJunk", PValue.num 3)] }

/-- Witness for the parameter-cleanup claim: the stale `material_oldJunk`
parameter disappears from the table on the next update pass, and the set
identities swap. -/
theorem param_cleanup_witness :
    alookup (updateUniforms sampleOps sampleStateStale sampleScene).parameters
      (PKey.str "material_oldJunk") = none ∧
    (updateUniforms sampleOps sampleStateStale sampleScene).activeParamsId =
      sampleStateStale.tmpParamsId ∧
    (updateUniforms sampleOps sampleStateStale sampleScene).tmpParamsId =
      sampleStateStale.activeParamsId :=
  param_cleanup sampleOps sampleStateStale sampleScene (PKey.str "material_oldJunk")
    (by decide) (by decide)

/-- C8: when the `onUpdateShader` override is set, `getShaderVariant` invokes
it exactly once, strictly after the options builder (minimal path for
depth/pick/shadow passes, full path otherwise) has produced the Options, and
the value the hook returns is the Options actually passed to the program
library together with the processing options. -/
theorem hook_after_builder (env : ShaderEnv) (hook : Option (SMOptions → SMOptions))
    (h : SMOptions → SMOptions) (st : MatState) (scene : Scene)
    (objDefs pass sortedLights vuf vbf : ℕ) (hh : hook = some h) :
    ∃ bo : SMOptions,
      (getShaderVariant env hook st scene objDefs pass sortedLights vuf vbf).2.2 =
        [SVEvent.envUpdate,
         (if (decide (pass = SHADER_DEPTH) || decide (pass = SHADER_PICK) ||
              env.isShadowPass pass) = true
          then SVEvent.builderMin bo else SVEvent.builderFull bo),
         SVEvent.hookCall bo (h bo),
         SVEvent.progFetch (h bo)
           { viewUniformFormat := vuf, viewBindGroupFormat := vbf }] ∧
      (getShaderVariant env hook st scene objDefs pass sortedLights vuf vbf).1 =
        env.getProgram (h bo)
          { viewUniformFormat := vuf, viewBindGroupFormat := vbf } := by
  subst hh
  refine ⟨if (decide (pass = SHADER_DEPTH) || decide (pass = SHADER_PICK) ||
      env.isShadowPass pass) = true
    then env.updateMinRef scene (updateEnvUniforms st scene).props objDefs pass sortedLights
    else env.updateRef scene (updateEnvUniforms st scene).props objDefs pass sortedLights,
    ?_, ?_⟩ <;>
  · by_cases hmin : (decide (pass = SHADER_DEPTH) || decide (pass = SHADER_PICK) ||
        env.isShadowPass pass) = true <;>
      simp [getShaderVariant, hmin]

/-- Witness for the hook-ordering claim: a concrete hook on a forward pass is
called once on the built options and its result reaches the program fetch. -/
theorem hook_after_builder_witness :
    ∃ bo : SMOptions,
      (getShaderVariant sampleEnv (some (fun o => { tag := o.tag + 7 })) sampleState
        sampleScene 0 0 0 0 0).2.2 =
        [SVEvent.envUpdate,
         (if (decide ((0 : ℕ) = SHADER_DEPTH) || decide ((0 : ℕ) = SHADER_PICK) ||
              sampleEnv.isShadowPass 0) = true
          then SVEvent.builderMin bo else SVEvent.builderFull bo),
         SVEvent.hookCall bo { tag := bo.tag + 7 },
         SVEvent.progFetch { tag := bo.tag + 7 }
           { viewUniformFormat := 0, viewBindGroupFormat := 0 }] ∧
      (getShaderVariant sampleEnv (some (fun o => { tag := o.tag + 7 })) sampleState
        sampleScene 0 0 0 0 0).1 =
        sampleEnv.getProgram { tag := bo.tag + 7 }
          { viewUniformFormat := 0, viewBindGroupFormat := 0 } :=
  hook_after_builder sampleEnv (some (fun o => { tag := o.tag + 7 }))
    (fun o => { tag := o.tag + 7 }) sampleState sampleScene 0 0 0 0 0 rfl

/-- The lockstep invariant of the three light stores of a render action: the
set (as an insertion-ordered list) coincides with the array, the array has no
duplicates, and the index array is the pointwise `indexOf` image of the
array in the global light list. -/
def lightStoresConsistent (allLights : List Light) (ra : RenderAction) : Prop :=
  ra.directionalLightsSet = ra.directionalLights ∧
  ra.directionalLights.Nodup ∧
  ra.directionalLightsIndices = ra.directionalLights.map (jsIndexOf allLights)

theorem collectLayerStep_inv (allLights : List Light) (light : Light)
    (acc : RenderAction) (layer : LayerRec) (h : lightStoresConsistent allLights acc) :
    lightStoresConsistent allLights (collectLayerStep allLights light acc layer) := by
  obtain ⟨h1, h2, h3⟩ := h
  unfold collectLayerStep
  split
  · split
    · exact ⟨h1, h2, h3⟩
    · rename_i hmem
      rw [h1] at hmem
      refine ⟨by simp [h1], ?_, by simp [h3]⟩
      simp [List.nodup_append, h2, hmem]
  · exact ⟨h1, h2, h3⟩

theorem foldl_layers_inv (allLights : List Light) (light : Light)
    (layers : List LayerRec) (acc : RenderAction)
    (h : lightStoresConsistent allLights acc) :
    lightStoresConsistent allLights
      (layers.foldl (collectLayerStep allLights light) acc) := by
  induction layers generalizing acc with
  | nil => exact h
  | cons l ls ih => exact ih _ (collectLayerStep_inv allLights light acc l h)

theorem collect_inv (ra : RenderAction) (cameraLayers : List LayerRec)
    (dirLights allLights : List Light) :
    lightStoresConsistent allLights
      (collectDirectionalLights ra cameraLayers dirLights allLights) := by
  unfold collectDirectionalLights
  have hbase : lightStoresConsistent allLights
      ({ ra with
         directionalLightsSet := []
         directionalLights := []
         directionalLightsIndices := [] } : RenderAction) := ⟨rfl, List.nodup_nil, rfl⟩
  generalize ({ ra with
    directionalLightsSet := []
    directionalLights := []
    directionalLightsIndices := [] } : RenderAction) = acc at hbase ⊢
  induction dirLights generalizing acc with
  | nil => exact hbase
  | cons d ds ih =>
    simp only [List.foldl_cons]
    apply ih
    split
    · exact foldl_layers_inv allLights d cameraLayers acc hbase
    · exact hbase

/-- C3: after `collectDirectionalLights`, a light is in the set exactly when
it is in the array, the array carries no duplicates (each collected light
occurs exactly once), every index entry equals `allLights.indexOf` of the
light at the same position, and the three stores have equal sizes. -/
theorem collect_lights_consistent (ra : RenderAction) (cameraLayers : List LayerRec)
    (dirLights allLights : List Light) :
    (∀ L : Light,
      L ∈ (collectDirectionalLights ra cameraLayers dirLights
            allLights).directionalLightsSet ↔
      L ∈ (collectDirectionalLights ra cameraLayers dirLights
            allLights).directionalLights) ∧
    (collectDirectionalLights ra cameraLayers dirLights
      allLights).directionalLights.Nodup ∧
    ((collectDirectionalLights ra cameraLayers dirLights
        allLights).directionalLightsIndices =
      (collectDirectionalLights ra cameraLayers dirLights
        allLights).directionalLights.map (jsIndexOf allLights)) ∧
    ((collectDirectionalLights ra cameraLayers dirLights
        allLights).directionalLightsSet.length =
      (collectDirectionalLights ra cameraLayers dirLights
        allLights).directionalLights.length) ∧
    ((collectDirectionalLights ra cameraLayers dirLights
        allLights).directionalLightsIndices.length =
      (collectDirectionalLights ra cameraLayers dirLights
        allLights).directionalLights.length) := by
  obtain ⟨h1, h2, h3⟩ := collect_inv ra cameraLayers dirLights allLights
  refine ⟨fun L => by rw [h1], h2, h3, by rw [h1], by rw [h3, List.length_map]⟩
